import Mathlib

/-!
Shallow embedding of the AutoDeploy Agent core: the history reconciler
(`syncHistory` merge logic), the explicit save operation, the generation
handler, the deployment pipeline (`handleDeploy`, `createRepository`,
`pushFilesToRepo`, `createVercelProject`) and the orchestration state
machine driving them, translated from `src/App.tsx`,
`src/services/githubService.ts` and `src/services/vercelService.ts`.
Remote HTTP calls are modelled by passing their outcomes in as data.
-/

namespace AutoDeploy

/-- Model of `FileNode` from `types.ts`: one generated source file. -/
structure FileNode where
  path : String
  content : String
deriving DecidableEq

/-- Model of `GeneratedProject` from `types.ts`. -/
structure GeneratedProject where
  name : String
  description : String
  files : List FileNode
deriving DecidableEq

/-- Model of `SavedProject` from `types.ts`: one history record.
JS numeric timestamps are modelled as `Nat`. -/
structure SavedProject where
  id : String
  timestamp : Nat
  prompt : String
  project : GeneratedProject
deriving DecidableEq

/-- The `Step` enum from `types.ts`: the orchestration phase. -/
inductive Step where
  | CONFIG
  | PROMPT
  | GENERATING
  | REVIEW
  | DEPLOYING
  | SUCCESS
deriving DecidableEq

/-- Model of `AppConfig` from `types.ts`; optional string fields are empty when absent
(matching JS falsiness of the empty string). -/
structure AppConfig where
  githubToken : String
  githubUsername : String
  vercelToken : String
  useBetaDeploy : Bool
deriving DecidableEq

/-- Model of `DeploymentResult` from `types.ts`. -/
structure DeploymentResult where
  repoUrl : String
  deployUrl : Option String
  isBeta : Bool
deriving DecidableEq

/-! ### History reconciler (`App.tsx`, `syncHistory` lines 53-59) -/

/-- One iteration of `prev.forEach(p => { if (!combined.find(c => c.id === p.id))
combined.push(p); })`: append the local record unless its id is already in
the accumulated list. -/
def mergeStep (combined : List SavedProject) (p : SavedProject) : List SavedProject :=
  if combined.any (fun c => c.id == p.id) then combined else combined ++ [p]

/-- The sort `combined.sort((a, b) => b.timestamp - a.timestamp)`: sort by timestamp
descending (newest first); JS sort is stable, as is `List.mergeSort`. -/
def sortByTimestampDesc (l : List SavedProject) : List SavedProject :=
  l.mergeSort (fun a b => b.timestamp ≤ a.timestamp)

/-- The merge of `syncHistory`: start from the cloud list, append each local
record whose id is not yet present, then sort by timestamp descending. -/
def merge (localH remoteH : List SavedProject) : List SavedProject :=
  sortByTimestampDesc (localH.foldl mergeStep remoteH)

/-- Modelled from the spec (section 4.2), for comparison with `merge`: the
remote list is the merge base; every local record whose id is absent from the
remote list is appended; the combined list is sorted by timestamp descending. -/
def specMerge (localH remoteH : List SavedProject) : List SavedProject :=
  sortByTimestampDesc
    (remoteH ++ localH.filter (fun p => !(remoteH.any (fun c => c.id == p.id))))

/-- Model of `syncHistory` (lines 46-65) after the remote load resolved: given the
value of `loadHistoryFromGist` (`none` models both a missing remote record and
a failed load, which the catch swallows), return the resulting in-memory
history together with what was written to `localStorage` (`none` = no write). -/
def syncHistory (localH : List SavedProject) (cloudHistory : Option (List SavedProject)) :
    List SavedProject × Option (List SavedProject) :=
  match cloudHistory with
  | none => (localH, none)
  | some cloud =>
      let combined := localH.foldl mergeStep cloud
      let sorted := sortByTimestampDesc combined
      (sorted, some sorted)

/-- The parsed content behind `file.raw_url` in `loadHistoryFromGist`:
`data.history || []` keeps `[]` when the `history` field is absent. -/
structure GistFileData where
  history : Option (List SavedProject)
deriving DecidableEq

/-- One gist returned by the gists listing; `dataFile` is the
`autodeploy-data.json` entry with its fetched content, when present. -/
structure Gist where
  description : String
  dataFile : Option GistFileData
deriving DecidableEq

/-- Model of `loadHistoryFromGist` (`githubService.ts` lines 66-81): `fetchOk` models
whether the gists listing succeeded; find the gist with the sync description,
read its data file, and return its `history` field (defaulting to `[]`). -/
def loadHistoryFromGist (fetchOk : Bool) (gists : List Gist) :
    Option (List SavedProject) :=
  if !fetchOk then none
  else
    match gists.find? (fun g => g.description == "autodeploy-sync") with
    | none => none
    | some g =>
        match g.dataFile with
        | none => none
        | some fd => some (fd.history.getD [])

/-- The sync entry point: `syncHistory` composed with the remote load. -/
def syncFromStore (localH : List SavedProject) (fetchOk : Bool) (gists : List Gist) :
    List SavedProject × Option (List SavedProject) :=
  syncHistory localH (loadHistoryFromGist fetchOk gists)

/-! ### Explicit save (`App.tsx`, `saveCurrentProject` lines 75-84) -/

/-- How `saveCurrentProject` reported back: no project loaded, saved, or
duplicate warning logged. -/
inductive SaveOutcome where
  | noProject
  | saved
  | duplicate
deriving DecidableEq

/-- Model of `saveCurrentProject`: skip when no project; otherwise suppress exact
duplicates (same project name and prompt) with a warning, else prepend the new
entry. `newId` and `ts` stand for `Math.random()` and `Date.now()`. -/
def saveCurrentProject (projectOpt : Option GeneratedProject) (prompt : String)
    (newId : String) (ts : Nat) (savedProjects : List SavedProject) :
    List SavedProject × SaveOutcome :=
  match projectOpt with
  | none => (savedProjects, SaveOutcome.noProject)
  | some project =>
      let isDuplicate :=
        savedProjects.any (fun p => p.project.name == project.name && p.prompt == prompt)
      if !isDuplicate then
        let newEntry : SavedProject :=
          { id := newId, timestamp := ts, prompt := prompt, project := project }
        (newEntry :: savedProjects, SaveOutcome.saved)
      else (savedProjects, SaveOutcome.duplicate)

/-! ### Generation handler and orchestration state (`App.tsx` lines 119-131) -/

/-- The pieces of component state the orchestration machine owns. -/
structure AppState where
  step : Step
  prompt : String
  project : Option GeneratedProject
  savedProjects : List SavedProject
  deploymentResult : Option DeploymentResult
deriving DecidableEq

/-- Model of `handleGenerate`, run to completion with the code-generation outcome given:
empty prompt returns unchanged; success stores the project, moves to REVIEW and
prepends a fresh history record with no duplicate suppression; failure logs and
falls back to PROMPT. -/
def handleGenerate (st : AppState) (outcome : Except String GeneratedProject)
    (newId : String) (ts : Nat) : AppState :=
  if st.prompt.trim == "" then st
  else
    match outcome with
    | Except.ok generated =>
        let newEntry : SavedProject :=
          { id := newId, timestamp := ts, prompt := st.prompt, project := generated }
        { st with
            step := Step.REVIEW
            project := some generated
            savedProjects := newEntry :: st.savedProjects }
    | Except.error _ => { st with step := Step.PROMPT }

/-- A generate click can reach `handleGenerate` only when the prompt view is
rendered (step PROMPT or GENERATING) and the button is enabled
(`disabled={step === Step.GENERATING || !prompt.trim()}`). -/
def canClickGenerate (st : AppState) : Bool :=
  (st.step == Step.PROMPT || st.step == Step.GENERATING)
    && !(st.step == Step.GENERATING) && !(st.prompt.trim == "")

/-- A user generate request: dispatched through the UI gating. -/
def clickGenerate (st : AppState) (outcome : Except String GeneratedProject)
    (newId : String) (ts : Nat) : AppState :=
  if canClickGenerate st then handleGenerate st outcome newId ts else st

/-! ### Deployment pipeline (`githubService.ts`, `vercelService.ts`, `App.tsx`) -/

/-- The raw response of the repository-creation POST: `ok`, the created repo
`html_url` (used on success), and `err.message` (used on failure). -/
structure RepoResponse where
  ok : Bool
  htmlUrl : String
  errMessage : String
deriving DecidableEq

/-- Model of `createRepository` (`githubService.ts` lines 14-29): on a non-ok response
throw the GitHub error message wrapped; otherwise return the response data
(only `html_url` is consumed downstream). -/
def createRepository (resp : RepoResponse) : Except String String :=
  if resp.ok then Except.ok resp.htmlUrl
  else Except.error ("GitHub Create Repo Error: " ++ resp.errMessage)

/-- One issued `PUT /contents` call of `pushFilesToRepo`: the file path and the
revision marker supplied (the probed `sha`, absent when the probe found none
or failed). -/
structure UploadCall where
  path : String
  sha : Option String
deriving DecidableEq

/-- Model of `pushFilesToRepo` (`githubService.ts` lines 31-61): for each file in order,
probe the existing revision (`probe`, best-effort), issue the upload, and
throw `Failed to upload <path>` as soon as one upload is not ok, attempting no
later file. Returns the issued calls in order plus the error, if any. -/
def pushFilesToRepo (probe : String → Option String) (uploadOk : String → Bool) :
    List FileNode → List UploadCall × Option String
  | [] => ([], none)
  | f :: rest =>
      let call : UploadCall := { path := f.path, sha := probe f.path }
      if uploadOk f.path then
        let r := pushFilesToRepo probe uploadOk rest
        (call :: r.1, r.2)
      else ([call], some ("Failed to upload " ++ f.path))

/-- The raw response of the Vercel project-creation POST. `name` is the project
name in a successful response body; `errMessage` is `err.message`, absent when
the error body has none. -/
structure VercelResponse where
  ok : Bool
  errCode : String
  errMessage : Option String
  name : String
deriving DecidableEq

/-- The value `createVercelProject` resolves with (the fields `handleDeploy`
consumes, plus the `html_url` synthesized in the already-exists branch). -/
structure VercelProject where
  name : String
  htmlUrl : Option String
deriving DecidableEq

/-- Model of `createVercelProject` (`vercelService.ts`): an ok response returns its
body; a `PROJECT_ALREADY_EXISTS` error is mapped to success with the requested
name and a URL derived from the repo owner; any other error is thrown with
`err.message` or the fallback text. -/
def createVercelProject (projectName : String) (repoName : String)
    (resp : VercelResponse) : Except String VercelProject :=
  if resp.ok then Except.ok { name := resp.name, htmlUrl := none }
  else if resp.errCode == "PROJECT_ALREADY_EXISTS" then
    Except.ok
      { name := projectName
        htmlUrl := some ("https://vercel.com/" ++ (repoName.splitOn "/").headD "" ++ "/"
          ++ projectName) }
  else Except.error (resp.errMessage.getD ("Failed to create Vercel project"))

/-- Everything observable about one `handleDeploy` run: the phase it ends in,
the `DeploymentResult` it set (if any), the upload calls issued, whether the
Vercel call was made, the fatal error logged by `handleError`, and the
non-fatal hosting warning. -/
structure DeployOutcome where
  finalStep : Step
  result : Option DeploymentResult
  uploads : List UploadCall
  hostingCalled : Bool
  errorLog : Option String
  warnLog : Option String
deriving DecidableEq

/-- A `DeployOutcome` for the early-return guard: nothing ran, the step is
unchanged. -/
def noopDeploy (s0 : Step) : DeployOutcome :=
  { finalStep := s0, result := none, uploads := [], hostingCalled := false,
    errorLog := none, warnLog := none }

/-- Model of `handleDeploy` (`App.tsx` lines 145-172), run to completion with the remote
outcomes given as data. `suffix` stands for `Math.floor(Math.random() * 1000)`.
Repository creation and any upload failure are fatal (caught by the outer
catch: log the error, fall back to REVIEW); the optional Vercel step runs only
with `useBetaDeploy` and a token, and its failure is caught inline as a
warning, the pipeline still succeeding with `isBeta := false`. -/
def handleDeploy (s0 : Step) (projectOpt : Option GeneratedProject)
    (config : AppConfig) (suffix : Nat) (repoResp : RepoResponse)
    (probe : String → Option String) (uploadOk : String → Bool)
    (vercelResp : VercelResponse) : DeployOutcome :=
  match projectOpt with
  | none => noopDeploy s0
  | some project =>
      if config.githubUsername == "" then noopDeploy s0
      else
        let repoName := project.name ++ "-" ++ toString suffix
        match createRepository repoResp with
        | Except.error e =>
            { finalStep := Step.REVIEW, result := none, uploads := [],
              hostingCalled := false, errorLog := some e, warnLog := none }
        | Except.ok repoUrl =>
            let push := pushFilesToRepo probe uploadOk project.files
            match push.2 with
            | some e =>
                { finalStep := Step.REVIEW, result := none, uploads := push.1,
                  hostingCalled := false, errorLog := some e, warnLog := none }
            | none =>
                if config.useBetaDeploy && !(config.vercelToken == "") then
                  match createVercelProject repoName
                      (config.githubUsername ++ "/" ++ repoName) vercelResp with
                  | Except.ok vProject =>
                      let vUrl := "https://vercel.com/" ++ config.githubUsername
                        ++ "/" ++ vProject.name
                      { finalStep := Step.SUCCESS,
                        result := some
                          { repoUrl := repoUrl, deployUrl := some vUrl, isBeta := true },
                        uploads := push.1, hostingCalled := true,
                        errorLog := none, warnLog := none }
                  | Except.error e =>
                      { finalStep := Step.SUCCESS,
                        result := some
                          { repoUrl := repoUrl, deployUrl := none, isBeta := false },
                        uploads := push.1, hostingCalled := true,
                        errorLog := none,
                        warnLog := some ("[Beta] Auto-deploy failed (" ++ e
                          ++ "). Falling back to manual mode.") }
                else
                  { finalStep := Step.SUCCESS,
                    result := some
                      { repoUrl := repoUrl, deployUrl := none, isBeta := false },
                    uploads := push.1, hostingCalled := false,
                    errorLog := none, warnLog := none }

/-- A deploy click can reach `handleDeploy` only when the review view is
rendered (step REVIEW or DEPLOYING with a project) and the button is enabled
(`disabled={step === Step.DEPLOYING}`). -/
def canClickDeploy (st : AppState) : Bool :=
  (st.step == Step.REVIEW || st.step == Step.DEPLOYING)
    && st.project.isSome && !(st.step == Step.DEPLOYING)

/-- A user deploy request: dispatched through the UI gating, folding the
pipeline outcome back into the component state. -/
def clickDeploy (st : AppState) (config : AppConfig) (suffix : Nat)
    (repoResp : RepoResponse) (probe : String → Option String)
    (uploadOk : String → Bool) (vercelResp : VercelResponse) : AppState :=
  if canClickDeploy st then
    let o := handleDeploy st.step st.project config suffix repoResp probe uploadOk vercelResp
    { st with
        step := o.finalStep
        deploymentResult := match o.result with | some r => some r | none => st.deploymentResult }
  else st

/-! ### Reconciler lemmas -/

/-- With pairwise-distinct local ids, the `forEach` fold of `syncHistory`
computes the remote list followed by exactly the local records whose id is
absent from the remote list, in local order. -/
theorem foldl_mergeStep_eq (L : List SavedProject) (R : List SavedProject)
    (hL : (L.map SavedProject.id).Nodup) :
    L.foldl mergeStep R
      = R ++ L.filter (fun p => !(R.any (fun c => c.id == p.id))) := by
  induction L generalizing R with
  | nil => simp
  | cons p L ih =>
      simp only [List.map_cons, List.nodup_cons] at hL
      obtain ⟨hp, hL2⟩ := hL
      simp only [List.foldl_cons, mergeStep]
      by_cases h : (R.any (fun c => c.id == p.id)) = true
      · rw [if_pos h, ih R hL2, List.filter_cons]
        simp [h]
      · rw [if_neg h, ih (R ++ [p]) hL2, List.filter_cons]
        have hfe : ∀ q ∈ L, (!((R ++ [p]).any (fun c => c.id == q.id)))
            = (!(R.any (fun c => c.id == q.id))) := by
          intro q hq
          have hpq : (p.id == q.id) = false := by
            rw [beq_eq_false_iff_ne]
            intro he
            apply hp
            rw [he]
            exact List.mem_map_of_mem SavedProject.id hq
          simp [List.any_append, hpq]
        rw [List.filter_congr hfe]
        have hcond : (!(R.any (fun c => c.id == p.id))) = true := by
          simp only [Bool.not_eq_true', Bool.not_eq_true] at h ⊢
          exact h
        simp [hcond]

/-- Records carrying an id already present in the base list are never appended
by the fold: the sublist of a given remote id is exactly what the base held. -/
theorem filter_id_foldl_mergeStep (L : List SavedProject) (R : List SavedProject)
    (i : String) (hi : ∃ c ∈ R, c.id = i) :
    (L.foldl mergeStep R).filter (fun x => x.id == i)
      = R.filter (fun x => x.id == i) := by
  induction L generalizing R with
  | nil => simp
  | cons p L ih =>
      simp only [List.foldl_cons, mergeStep]
      by_cases h : (R.any (fun c => c.id == p.id)) = true
      · rw [if_pos h]
        exact ih R hi
      · rw [if_neg h]
        have hpi : (p.id == i) = false := by
          rw [beq_eq_false_iff_ne]
          intro he
          apply h
          rw [List.any_eq_true]
          obtain ⟨c, hc, hci⟩ := hi
          exact ⟨c, hc, by rw [beq_iff_eq, hci, he]⟩
        have hi2 : ∃ c ∈ R ++ [p], c.id = i := by
          obtain ⟨c, hc, hci⟩ := hi
          exact ⟨c, List.mem_append_left _ hc, hci⟩
        rw [ih (R ++ [p]) hi2, List.filter_append]
        simp [hpi]

/-- In a list with pairwise-distinct ids, filtering by the id of a member
yields exactly that member. -/
theorem filter_id_of_nodup (R : List SavedProject)
    (hR : (R.map SavedProject.id).Nodup) (r : SavedProject) (hr : r ∈ R) :
    R.filter (fun x => x.id == r.id) = [r] := by
  induction R with
  | nil => cases hr
  | cons a R ih =>
      simp only [List.map_cons, List.nodup_cons] at hR
      obtain ⟨ha, hR2⟩ := hR
      rcases List.mem_cons.mp hr with h | h
      · have ha2 : a = r := h.symm
        subst ha2
        have hnil : R.filter (fun x => x.id == a.id) = [] := by
          rw [List.filter_eq_nil_iff]
          intro x hx
          simp only [beq_iff_eq]
          intro he
          apply ha
          rw [← he]
          exact List.mem_map_of_mem SavedProject.id hx
        simp [List.filter_cons, hnil]
      · have hne : (a.id == r.id) = false := by
          rw [beq_eq_false_iff_ne]
          intro he
          apply ha
          rw [he]
          exact List.mem_map_of_mem SavedProject.id h
        rw [List.filter_cons]
        simp only [hne, Bool.false_eq_true, if_false]
        exact ih hR2 h

/-- The fold result, and hence the merge, is a permutation of base plus the
appended locals. -/
theorem merge_perm (L R : List SavedProject)
    (hL : (L.map SavedProject.id).Nodup) :
    List.Perm (merge L R) (R ++ L.filter (fun p => !(R.any (fun c => c.id == p.id)))) := by
  have h := foldl_mergeStep_eq L R hL
  simp only [merge, sortByTimestampDesc]
  rw [h]
  exact List.mergeSort_perm _ _

/-- C1: for pairwise-disjoint-id local list L and remote list R, `merge(L,R)`
refines the spec merge (remote base, absent-id locals appended, then sorted),
has length `|R| + |L \ ids(R)|`, contains every remote record and an entry for
every local id, and is sorted non-increasing by timestamp. -/
theorem merge_spec (L R : List SavedProject)
    (hL : (L.map SavedProject.id).Nodup) (hR : (R.map SavedProject.id).Nodup) :
    merge L R = specMerge L R
    ∧ (merge L R).length
        = R.length + (L.filter (fun p => !(R.any (fun c => c.id == p.id)))).length
    ∧ (∀ r ∈ R, r ∈ merge L R)
    ∧ (∀ l ∈ L, ∃ q ∈ merge L R, q.id = l.id)
    ∧ (merge L R).Sorted (fun a b => b.timestamp ≤ a.timestamp) := by
  have hperm := merge_perm L R hL
  refine ⟨?_, ?_, ?_, ?_, ?_⟩
  · simp only [merge, specMerge, sortByTimestampDesc]
    rw [foldl_mergeStep_eq L R hL]
  · rw [hperm.length_eq, List.length_append]
  · intro r hr
    rw [hperm.mem_iff, List.mem_append]
    exact Or.inl hr
  · intro l hl
    by_cases h : (R.any (fun c => c.id == l.id)) = true
    · rw [List.any_eq_true] at h
      obtain ⟨c, hc, hcid⟩ := h
      refine ⟨c, ?_, ?_⟩
      · rw [hperm.mem_iff, List.mem_append]
        exact Or.inl hc
      · exact beq_iff_eq.mp hcid
    · refine ⟨l, ?_, rfl⟩
      rw [hperm.mem_iff, List.mem_append]
      right
      rw [List.mem_filter]
      refine ⟨hl, ?_⟩
      simp only [Bool.not_eq_true] at h
      simp [h]
  · have hs := @List.sorted_mergeSort SavedProject
      (fun a b => decide (b.timestamp ≤ a.timestamp))
      (fun a b c h1 h2 => by
        simp only [decide_eq_true_eq] at h1 h2 ⊢
        omega)
      (fun a b => by
        simp only [Bool.or_eq_true, decide_eq_true_eq]
        omega)
      (L.foldl mergeStep R)
    simp only [merge, sortByTimestampDesc, List.Sorted]
    exact hs.imp (fun h => by simpa using h)

/-- Witness for `merge_spec` on the scenario of section 8 of the spec. -/
theorem merge_spec_witness :
    ((([⟨"a", 5, "q", ⟨"p", "", []⟩⟩] : List SavedProject).map SavedProject.id).Nodup
      ∧ (([⟨"a", 5, "q", ⟨"p", "", []⟩⟩, ⟨"b", 9, "q", ⟨"p", "", []⟩⟩] :
            List SavedProject).map SavedProject.id).Nodup)
    ∧ (merge [⟨"a", 5, "q", ⟨"p", "", []⟩⟩]
          [⟨"a", 5, "q", ⟨"p", "", []⟩⟩, ⟨"b", 9, "q", ⟨"p", "", []⟩⟩]
        = specMerge [⟨"a", 5, "q", ⟨"p", "", []⟩⟩]
          [⟨"a", 5, "q", ⟨"p", "", []⟩⟩, ⟨"b", 9, "q", ⟨"p", "", []⟩⟩]
      ∧ (merge [⟨"a", 5, "q", ⟨"p", "", []⟩⟩]
          [⟨"a", 5, "q", ⟨"p", "", []⟩⟩, ⟨"b", 9, "q", ⟨"p", "", []⟩⟩]).length
          = ([⟨"a", 5, "q", ⟨"p", "", []⟩⟩, ⟨"b", 9, "q", ⟨"p", "", []⟩⟩] :
              List SavedProject).length
            + (([⟨"a", 5, "q", ⟨"p", "", []⟩⟩] : List SavedProject).filter
                (fun p => !(([⟨"a", 5, "q", ⟨"p", "", []⟩⟩, ⟨"b", 9, "q", ⟨"p", "", []⟩⟩] :
                  List SavedProject).any (fun c => c.id == p.id)))).length
      ∧ (∀ r ∈ ([⟨"a", 5, "q", ⟨"p", "", []⟩⟩, ⟨"b", 9, "q", ⟨"p", "", []⟩⟩] :
            List SavedProject),
          r ∈ merge [⟨"a", 5, "q", ⟨"p", "", []⟩⟩]
            [⟨"a", 5, "q", ⟨"p", "", []⟩⟩, ⟨"b", 9, "q", ⟨"p", "", []⟩⟩])
      ∧ (∀ l ∈ ([⟨"a", 5, "q", ⟨"p", "", []⟩⟩] : List SavedProject),
          ∃ q ∈ merge [⟨"a", 5, "q", ⟨"p", "", []⟩⟩]
            [⟨"a", 5, "q", ⟨"p", "", []⟩⟩, ⟨"b", 9, "q", ⟨"p", "", []⟩⟩], q.id = l.id)
      ∧ (merge [⟨"a", 5, "q", ⟨"p", "", []⟩⟩]
          [⟨"a", 5, "q", ⟨"p", "", []⟩⟩, ⟨"b", 9, "q", ⟨"p", "", []⟩⟩]).Sorted
          (fun a b => b.timestamp ≤ a.timestamp)) :=
  ⟨⟨by decide, by decide⟩, merge_spec _ _ (by decide) (by decide)⟩

/-- C9: when an id occurs in both lists (remote ids pairwise distinct), the
merged list keeps exactly the remote copy under that id; a differing local
copy is absent from the merge. -/
theorem merge_remote_wins (L R : List SavedProject)
    (hR : (R.map SavedProject.id).Nodup) (l r : SavedProject)
    (hl : l ∈ L) (hr : r ∈ R) (hid : l.id = r.id) :
    (merge L R).filter (fun x => x.id == r.id) = [r]
    ∧ (l ≠ r → l ∉ merge L R) := by
  have h1 : (L.foldl mergeStep R).filter (fun x => x.id == r.id) = [r] := by
    rw [filter_id_foldl_mergeStep L R r.id ⟨r, hr, rfl⟩]
    exact filter_id_of_nodup R hR r hr
  have hp0 : List.Perm (merge L R) (L.foldl mergeStep R) := by
    simp only [merge, sortByTimestampDesc]
    exact List.mergeSort_perm _ _
  have hperm : List.Perm ((merge L R).filter (fun x => x.id == r.id)) [r] := by
    rw [← h1]
    exact hp0.filter _
  have heq : (merge L R).filter (fun x => x.id == r.id) = [r] :=
    List.perm_singleton.mp hperm
  refine ⟨heq, ?_⟩
  intro hne hmem
  have hlf : l ∈ (merge L R).filter (fun x => x.id == r.id) := by
    rw [List.mem_filter]
    refine ⟨hmem, ?_⟩
    rw [beq_iff_eq]
    exact hid
  rw [heq] at hlf
  exact hne (List.mem_singleton.mp hlf)

/-- Witness for `merge_remote_wins`: local and remote copies of id `a` differ
in timestamp; the merge keeps the remote one. -/
theorem merge_remote_wins_witness :
    ((([⟨"a", 7, "q", ⟨"p", "", []⟩⟩] : List SavedProject).map SavedProject.id).Nodup
      ∧ (⟨"a", 5, "q", ⟨"p", "", []⟩⟩ : SavedProject)
          ∈ ([⟨"a", 5, "q", ⟨"p", "", []⟩⟩] : List SavedProject)
      ∧ (⟨"a", 7, "q", ⟨"p", "", []⟩⟩ : SavedProject)
          ∈ ([⟨"a", 7, "q", ⟨"p", "", []⟩⟩] : List SavedProject)
      ∧ (⟨"a", 5, "q", ⟨"p", "", []⟩⟩ : SavedProject).id
          = (⟨"a", 7, "q", ⟨"p", "", []⟩⟩ : SavedProject).id)
    ∧ ((merge [⟨"a", 5, "q", ⟨"p", "", []⟩⟩] [⟨"a", 7, "q", ⟨"p", "", []⟩⟩]).filter
          (fun x => x.id == (⟨"a", 7, "q", ⟨"p", "", []⟩⟩ : SavedProject).id)
        = [⟨"a", 7, "q", ⟨"p", "", []⟩⟩]
      ∧ ((⟨"a", 5, "q", ⟨"p", "", []⟩⟩ : SavedProject) ≠ ⟨"a", 7, "q", ⟨"p", "", []⟩⟩ →
          (⟨"a", 5, "q", ⟨"p", "", []⟩⟩ : SavedProject)
            ∉ merge [⟨"a", 5, "q", ⟨"p", "", []⟩⟩] [⟨"a", 7, "q", ⟨"p", "", []⟩⟩])) :=
  ⟨⟨by decide, by decide, by decide, by decide⟩,
    merge_remote_wins _ _ (by decide) _ _ (by decide) (by decide) (by decide)⟩

/-- C7: sync leaves the local list untouched (and writes nothing) when no
remote history record exists, and when a remote record exists it returns the
merge of local and remote and persists exactly that merged list locally. -/
theorem syncFromStore_spec (localH : List SavedProject) (fetchOk : Bool)
    (gists : List Gist) :
    (loadHistoryFromGist fetchOk gists = none →
        syncFromStore localH fetchOk gists = (localH, none))
    ∧ (∀ R, loadHistoryFromGist fetchOk gists = some R →
        syncFromStore localH fetchOk gists = (merge localH R, some (merge localH R))) := by
  constructor
  · intro h
    simp [syncFromStore, syncHistory, h]
  · intro R h
    simp [syncFromStore, syncHistory, h, merge]

/-- Witness for `syncFromStore_spec`: an empty gist listing leaves the local
list alone; a listing holding the sync gist merges and persists. -/
theorem syncFromStore_spec_witness :
    (loadHistoryFromGist true ([] : List Gist) = none
      ∧ syncFromStore [⟨"a", 5, "q", ⟨"p", "", []⟩⟩] true ([] : List Gist)
          = ([⟨"a", 5, "q", ⟨"p", "", []⟩⟩], none))
    ∧ (loadHistoryFromGist true
          [⟨"autodeploy-sync", some ⟨some [⟨"b", 9, "q", ⟨"p", "", []⟩⟩]⟩⟩]
        = some [⟨"b", 9, "q", ⟨"p", "", []⟩⟩]
      ∧ syncFromStore [⟨"a", 5, "q", ⟨"p", "", []⟩⟩] true
          [⟨"autodeploy-sync", some ⟨some [⟨"b", 9, "q", ⟨"p", "", []⟩⟩]⟩⟩]
        = (merge [⟨"a", 5, "q", ⟨"p", "", []⟩⟩] [⟨"b", 9, "q", ⟨"p", "", []⟩⟩],
           some (merge [⟨"a", 5, "q", ⟨"p", "", []⟩⟩] [⟨"b", 9, "q", ⟨"p", "", []⟩⟩]))) :=
  ⟨⟨by decide, (syncFromStore_spec _ _ _).1 (by decide)⟩,
    ⟨by decide, (syncFromStore_spec _ _ _).2 _ (by decide)⟩⟩

/-- C6: saving with the project name and prompt of an existing record skips
the insert and reports a duplicate; otherwise the record is prepended at the
front; in particular a second save of the same (name, prompt) never grows the
history. -/
theorem saveCurrentProject_spec (project : GeneratedProject) (prompt id1 id2 : String)
    (ts1 ts2 : Nat) (h : List SavedProject) :
    ((∃ p ∈ h, p.project.name = project.name ∧ p.prompt = prompt) →
        saveCurrentProject (some project) prompt id1 ts1 h = (h, SaveOutcome.duplicate))
    ∧ ((¬ ∃ p ∈ h, p.project.name = project.name ∧ p.prompt = prompt) →
        saveCurrentProject (some project) prompt id1 ts1 h
          = (⟨id1, ts1, prompt, project⟩ :: h, SaveOutcome.saved))
    ∧ (saveCurrentProject (some project) prompt id2 ts2
          (saveCurrentProject (some project) prompt id1 ts1 h).1).1.length
        = (saveCurrentProject (some project) prompt id1 ts1 h).1.length
    ∧ (saveCurrentProject (some project) prompt id2 ts2
          (saveCurrentProject (some project) prompt id1 ts1 h).1).2
        = SaveOutcome.duplicate := by
  have key : ∀ (l : List SavedProject),
      (l.any (fun p => p.project.name == project.name && p.prompt == prompt)) = true
        ↔ ∃ p ∈ l, p.project.name = project.name ∧ p.prompt = prompt := by
    intro l
    rw [List.any_eq_true]
    constructor
    · rintro ⟨p, hp, hb⟩
      rw [Bool.and_eq_true, beq_iff_eq, beq_iff_eq] at hb
      exact ⟨p, hp, hb⟩
    · rintro ⟨p, hp, h1, h2⟩
      refine ⟨p, hp, ?_⟩
      rw [Bool.and_eq_true, beq_iff_eq, beq_iff_eq]
      exact ⟨h1, h2⟩
  by_cases hdup :
      (h.any (fun p => p.project.name == project.name && p.prompt == prompt)) = true
  · refine ⟨fun _ => ?_, fun hnex => absurd ((key h).mp hdup) hnex, ?_, ?_⟩
    · simp [saveCurrentProject, hdup]
    · simp [saveCurrentProject, hdup]
    · simp [saveCurrentProject, hdup]
  · have hdf :
        (h.any (fun p => p.project.name == project.name && p.prompt == prompt)) = false :=
      Bool.eq_false_iff.mpr hdup
    refine ⟨fun hex => absurd ((key h).mpr hex) hdup, fun _ => ?_, ?_, ?_⟩
    · simp [saveCurrentProject, hdf]
    · simp [saveCurrentProject, hdf, List.any_cons]
    · simp [saveCurrentProject, hdf, List.any_cons]

/-- Witness for `saveCurrentProject_spec`: a matching record forces the
duplicate branch; an empty history takes the prepend branch; the double save
on an empty history keeps length 1 and reports the duplicate. -/
theorem saveCurrentProject_spec_witness :
    ((∃ p ∈ ([⟨"x", 1, "q", ⟨"p", "", []⟩⟩] : List SavedProject),
        p.project.name = ("p" : String) ∧ p.prompt = ("q" : String))
      ∧ saveCurrentProject (some ⟨"p", "", []⟩) "q" "i1" 2
          [⟨"x", 1, "q", ⟨"p", "", []⟩⟩]
        = ([⟨"x", 1, "q", ⟨"p", "", []⟩⟩], SaveOutcome.duplicate))
    ∧ ((¬ ∃ p ∈ ([] : List SavedProject),
          p.project.name = ("p" : String) ∧ p.prompt = ("q" : String))
      ∧ saveCurrentProject (some ⟨"p", "", []⟩) "q" "i1" 2 []
          = ([⟨"i1", 2, "q", ⟨"p", "", []⟩⟩], SaveOutcome.saved))
    ∧ (saveCurrentProject (some ⟨"p", "", []⟩) "q" "i2" 3
          (saveCurrentProject (some ⟨"p", "", []⟩) "q" "i1" 2 []).1).1.length
        = (saveCurrentProject (some ⟨"p", "", []⟩) "q" "i1" 2 []).1.length
    ∧ (saveCurrentProject (some ⟨"p", "", []⟩) "q" "i2" 3
          (saveCurrentProject (some ⟨"p", "", []⟩) "q" "i1" 2 []).1).2
        = SaveOutcome.duplicate :=
  ⟨⟨by decide, (saveCurrentProject_spec ⟨"p", "", []⟩ "q" "i1" "i2" 2 3 _).1 (by decide)⟩,
    ⟨by decide, (saveCurrentProject_spec ⟨"p", "", []⟩ "q" "i1" "i2" 2 3 _).2.1 (by decide)⟩,
    (saveCurrentProject_spec ⟨"p", "", []⟩ "q" "i1" "i2" 2 3 []).2.2.1,
    (saveCurrentProject_spec ⟨"p", "", []⟩ "q" "i1" "i2" 2 3 []).2.2.2⟩

/-- C10: a successful generation prepends a fresh record (given id, current
timestamp, current prompt) with no duplicate suppression: generating twice
from the same prompt (with distinct fresh ids) yields two distinct records
sharing the project name and prompt. -/
theorem handleGenerate_twice (st : AppState) (g : GeneratedProject)
    (id1 : String) (ts1 : Nat) (id2 : String) (ts2 : Nat)
    (hp : ¬(st.prompt.trim = "")) (hid : id1 ≠ id2) :
    (handleGenerate st (Except.ok g) id1 ts1).savedProjects
        = ⟨id1, ts1, st.prompt, g⟩ :: st.savedProjects
    ∧ (handleGenerate st (Except.ok g) id1 ts1).step = Step.REVIEW
    ∧ (handleGenerate { handleGenerate st (Except.ok g) id1 ts1 with step := Step.PROMPT }
          (Except.ok g) id2 ts2).savedProjects
        = ⟨id2, ts2, st.prompt, g⟩ :: ⟨id1, ts1, st.prompt, g⟩ :: st.savedProjects
    ∧ (⟨id2, ts2, st.prompt, g⟩ : SavedProject) ≠ ⟨id1, ts1, st.prompt, g⟩
    ∧ (⟨id2, ts2, st.prompt, g⟩ : SavedProject).project.name
        = (⟨id1, ts1, st.prompt, g⟩ : SavedProject).project.name
    ∧ (⟨id2, ts2, st.prompt, g⟩ : SavedProject).prompt
        = (⟨id1, ts1, st.prompt, g⟩ : SavedProject).prompt := by
  have hpf : (st.prompt.trim == "") = false := by
    rw [beq_eq_false_iff_ne]
    exact hp
  refine ⟨?_, ?_, ?_, ?_, rfl, rfl⟩
  · simp [handleGenerate, hpf]
  · simp [handleGenerate, hpf]
  · simp [handleGenerate, hpf]
  · intro he
    exact hid (congrArg SavedProject.id he).symm

unseal Substring.takeWhileAux Substring.takeRightWhileAux in
/-- Witness for `handleGenerate_twice` from the PROMPT state with a nonempty
prompt and two distinct fresh ids. -/
theorem handleGenerate_twice_witness :
    (¬((⟨Step.PROMPT, "q", none, [], none⟩ : AppState).prompt.trim = "")
      ∧ ("i1" : String) ≠ "i2")
    ∧ ((handleGenerate ⟨Step.PROMPT, "q", none, [], none⟩
          (Except.ok ⟨"p", "", []⟩) "i1" 1).savedProjects
        = [⟨"i1", 1, "q", ⟨"p", "", []⟩⟩]
      ∧ (handleGenerate ⟨Step.PROMPT, "q", none, [], none⟩
          (Except.ok ⟨"p", "", []⟩) "i1" 1).step = Step.REVIEW
      ∧ (handleGenerate
            { handleGenerate ⟨Step.PROMPT, "q", none, [], none⟩
                (Except.ok ⟨"p", "", []⟩) "i1" 1 with step := Step.PROMPT }
            (Except.ok ⟨"p", "", []⟩) "i2" 2).savedProjects
        = [⟨"i2", 2, "q", ⟨"p", "", []⟩⟩, ⟨"i1", 1, "q", ⟨"p", "", []⟩⟩]
      ∧ (⟨"i2", 2, "q", ⟨"p", "", []⟩⟩ : SavedProject) ≠ ⟨"i1", 1, "q", ⟨"p", "", []⟩⟩
      ∧ (⟨"i2", 2, "q", ⟨"p", "", []⟩⟩ : SavedProject).project.name
          = (⟨"i1", 1, "q", ⟨"p", "", []⟩⟩ : SavedProject).project.name
      ∧ (⟨"i2", 2, "q", ⟨"p", "", []⟩⟩ : SavedProject).prompt
          = (⟨"i1", 1, "q", ⟨"p", "", []⟩⟩ : SavedProject).prompt) :=
  ⟨⟨by decide, by decide⟩,
    handleGenerate_twice ⟨Step.PROMPT, "q", none, [], none⟩ ⟨"p", "", []⟩
      "i1" 1 "i2" 2 (by decide) (by decide)⟩

/-- C8: the run-lock of the state machine: a generate request arriving while
the phase is GENERATING and a deploy request arriving while the phase is
DEPLOYING are rejected with no state change. -/
theorem single_run_in_flight (st : AppState) (outcome : Except String GeneratedProject)
    (newId : String) (ts : Nat) (config : AppConfig) (suffix : Nat)
    (repoResp : RepoResponse) (probe : String → Option String)
    (uploadOk : String → Bool) (vercelResp : VercelResponse) :
    (st.step = Step.GENERATING → clickGenerate st outcome newId ts = st)
    ∧ (st.step = Step.DEPLOYING →
        clickDeploy st config suffix repoResp probe uploadOk vercelResp = st) := by
  constructor
  · intro h
    simp [clickGenerate, canClickGenerate, h]
  · intro h
    simp [clickDeploy, canClickDeploy, h]

/-- Witness for `single_run_in_flight` in concrete GENERATING and DEPLOYING
states. -/
theorem single_run_in_flight_witness :
    ((⟨Step.GENERATING, "q", none, [], none⟩ : AppState).step = Step.GENERATING
      ∧ clickGenerate ⟨Step.GENERATING, "q", none, [], none⟩
          (Except.ok ⟨"p", "", []⟩) "i1" 1
        = ⟨Step.GENERATING, "q", none, [], none⟩)
    ∧ ((⟨Step.DEPLOYING, "q", some ⟨"p", "", []⟩, [], none⟩ : AppState).step
          = Step.DEPLOYING
      ∧ clickDeploy ⟨Step.DEPLOYING, "q", some ⟨"p", "", []⟩, [], none⟩
          ⟨"t", "u", "v", true⟩ 7 ⟨true, "https://github.com/u/p-7", ""⟩
          (fun _ => none) (fun _ => true) ⟨true, "", none, "p-7"⟩
        = ⟨Step.DEPLOYING, "q", some ⟨"p", "", []⟩, [], none⟩) :=
  ⟨⟨rfl,
      (single_run_in_flight ⟨Step.GENERATING, "q", none, [], none⟩
        (Except.ok ⟨"p", "", []⟩) "i1" 1 ⟨"t", "u", "v", true⟩ 7
        ⟨true, "https://github.com/u/p-7", ""⟩ (fun _ => none) (fun _ => true)
        ⟨true, "", none, "p-7"⟩).1 rfl⟩,
    ⟨rfl,
      (single_run_in_flight ⟨Step.DEPLOYING, "q", some ⟨"p", "", []⟩, [], none⟩
        (Except.ok ⟨"p", "", []⟩) "i1" 1 ⟨"t", "u", "v", true⟩ 7
        ⟨true, "https://github.com/u/p-7", ""⟩ (fun _ => none) (fun _ => true)
        ⟨true, "", none, "p-7"⟩).2 rfl⟩⟩

/-! ### Pipeline lemmas -/

/-- When every upload succeeds, `pushFilesToRepo` issues one upload per file
in declared order and reports no error. -/
theorem pushFilesToRepo_allOk (probe : String → Option String)
    (uploadOk : String → Bool) (files : List FileNode)
    (h : ∀ f ∈ files, uploadOk f.path = true) :
    pushFilesToRepo probe uploadOk files
      = (files.map (fun f => { path := f.path, sha := probe f.path }), none) := by
  induction files with
  | nil => rfl
  | cons f rest ih =>
      have hf := h f (List.mem_cons_self f rest)
      have hrest := ih (fun x hx => h x (List.mem_cons_of_mem f hx))
      simp [pushFilesToRepo, hf, hrest]

/-- The exact shape of an aborted upload run: all of `A` succeeds, `b` fails,
so the calls issued are those for `A` then `b`, and the error names `b`. -/
theorem pushFilesToRepo_eq_abort (probe : String → Option String)
    (uploadOk : String → Bool) (A C : List FileNode) (b : FileNode)
    (hA : ∀ f ∈ A, uploadOk f.path = true) (hb : uploadOk b.path = false) :
    pushFilesToRepo probe uploadOk (A ++ b :: C)
      = ((A ++ [b]).map (fun f => { path := f.path, sha := probe f.path }),
         some ("Failed to upload " ++ b.path)) := by
  induction A with
  | nil => simp [pushFilesToRepo, hb]
  | cons f A ih =>
      have hf := hA f (List.mem_cons_self f A)
      have hrest := ih (fun x hx => hA x (List.mem_cons_of_mem f hx))
      simp [pushFilesToRepo, hf, hrest]

/-- C2: uploads are issued strictly sequentially in declared order; when the
upload of file `b` (preceded by `A`, followed by `C`, paths pairwise distinct)
fails, the pipeline aborts with an error naming `b`: every file of `A` has
been issued exactly once, and no file of `C` is attempted. -/
theorem pushFilesToRepo_abort (probe : String → Option String)
    (uploadOk : String → Bool) (A C : List FileNode) (b : FileNode)
    (hA : ∀ f ∈ A, uploadOk f.path = true) (hb : uploadOk b.path = false)
    (hpaths : ((A ++ b :: C).map FileNode.path).Nodup) :
    (pushFilesToRepo probe uploadOk (A ++ b :: C)).1
        = (A ++ [b]).map (fun f => { path := f.path, sha := probe f.path })
    ∧ (pushFilesToRepo probe uploadOk (A ++ b :: C)).2
        = some ("Failed to upload " ++ b.path)
    ∧ (∀ f ∈ A,
        ((pushFilesToRepo probe uploadOk (A ++ b :: C)).1.map UploadCall.path).count f.path
          = 1)
    ∧ (∀ f ∈ C,
        f.path ∉ (pushFilesToRepo probe uploadOk (A ++ b :: C)).1.map UploadCall.path) := by
  have heq := pushFilesToRepo_eq_abort probe uploadOk A C b hA hb
  have hfst : (pushFilesToRepo probe uploadOk (A ++ b :: C)).1
      = (A ++ [b]).map (fun f => { path := f.path, sha := probe f.path }) := by
    rw [heq]
  have hmap : (pushFilesToRepo probe uploadOk (A ++ b :: C)).1.map UploadCall.path
      = A.map FileNode.path ++ [b.path] := by
    rw [hfst]
    simp
  rw [List.map_append, List.map_cons, List.nodup_append] at hpaths
  obtain ⟨hnA, hnBC, hdisj⟩ := hpaths
  rw [List.nodup_cons] at hnBC
  obtain ⟨hbC, hnC⟩ := hnBC
  refine ⟨hfst, by rw [heq], ?_, ?_⟩
  · intro f hf
    have hfA : f.path ∈ A.map FileNode.path := List.mem_map_of_mem FileNode.path hf
    have hfb : f.path ≠ b.path := by
      intro he
      exact hdisj hfA (by rw [he]; exact List.mem_cons_self b.path (C.map FileNode.path))
    rw [hmap, List.count_append, List.count_eq_one_of_mem hnA hfA,
      List.count_eq_zero.mpr (by simp [hfb])]
  · intro f hf
    have hfC : f.path ∈ C.map FileNode.path := List.mem_map_of_mem FileNode.path hf
    rw [hmap, List.mem_append]
    rintro (hin | hin)
    · exact hdisj hin (List.mem_cons_of_mem b.path hfC)
    · rw [List.mem_singleton] at hin
      exact hbC (hin ▸ hfC)

/-- Witness for `pushFilesToRepo_abort`: the second of three files fails. -/
theorem pushFilesToRepo_abort_witness :
    ((∀ f ∈ ([⟨"index.html", "x"⟩] : List FileNode),
        (fun s => !(s == "src/main.ts")) f.path = true)
      ∧ (fun s : String => !(s == "src/main.ts")) "src/main.ts" = false
      ∧ ((([⟨"index.html", "x"⟩] : List FileNode)
            ++ (⟨"src/main.ts", "y"⟩ : FileNode) :: [⟨"z.txt", "z"⟩]).map
              FileNode.path).Nodup)
    ∧ ((pushFilesToRepo (fun _ => none) (fun s => !(s == "src/main.ts"))
          ([⟨"index.html", "x"⟩] ++ ⟨"src/main.ts", "y"⟩ :: [⟨"z.txt", "z"⟩])).1
        = (([⟨"index.html", "x"⟩] : List FileNode)
              ++ ([⟨"src/main.ts", "y"⟩] : List FileNode)).map
            (fun f => ({ path := f.path, sha := (fun _ => none) f.path } : UploadCall))
      ∧ (pushFilesToRepo (fun _ => none) (fun s => !(s == "src/main.ts"))
          ([⟨"index.html", "x"⟩] ++ ⟨"src/main.ts", "y"⟩ :: [⟨"z.txt", "z"⟩])).2
        = some ("Failed to upload " ++ "src/main.ts")
      ∧ (∀ f ∈ ([⟨"index.html", "x"⟩] : List FileNode),
          ((pushFilesToRepo (fun _ => none) (fun s => !(s == "src/main.ts"))
              ([⟨"index.html", "x"⟩] ++ ⟨"src/main.ts", "y"⟩ :: [⟨"z.txt", "z"⟩])).1.map
                UploadCall.path).count f.path = 1)
      ∧ (∀ f ∈ ([⟨"z.txt", "z"⟩] : List FileNode),
          f.path ∉ (pushFilesToRepo (fun _ => none) (fun s => !(s == "src/main.ts"))
              ([⟨"index.html", "x"⟩] ++ ⟨"src/main.ts", "y"⟩ :: [⟨"z.txt", "z"⟩])).1.map
                UploadCall.path)) :=
  ⟨⟨by decide, by decide, by decide⟩,
    pushFilesToRepo_abort (fun _ => none) (fun s => !(s == "src/main.ts"))
      [⟨"index.html", "x"⟩] [⟨"z.txt", "z"⟩] ⟨"src/main.ts", "y"⟩
      (by decide) (by decide) (by decide)⟩

/-- C3: when repository creation fails (username present so the run starts),
the pipeline aborts before uploads: no upload call, no hosting call, no
result, the createRepository error surfaced unchanged, phase back to REVIEW. -/
theorem handleDeploy_repoCreateFails (s0 : Step) (project : GeneratedProject)
    (config : AppConfig) (suffix : Nat) (repoResp : RepoResponse)
    (probe : String → Option String) (uploadOk : String → Bool)
    (vercelResp : VercelResponse)
    (hu : ¬(config.githubUsername = "")) (hfail : repoResp.ok = false) :
    createRepository repoResp
        = Except.error ("GitHub Create Repo Error: " ++ repoResp.errMessage)
    ∧ handleDeploy s0 (some project) config suffix repoResp probe uploadOk vercelResp
        = { finalStep := Step.REVIEW, result := none, uploads := [],
            hostingCalled := false,
            errorLog := some ("GitHub Create Repo Error: " ++ repoResp.errMessage),
            warnLog := none } := by
  have hc : createRepository repoResp
      = Except.error ("GitHub Create Repo Error: " ++ repoResp.errMessage) := by
    simp [createRepository, hfail]
  have hu2 : (config.githubUsername == "") = false := by
    rw [beq_eq_false_iff_ne]
    exact hu
  exact ⟨hc, by simp [handleDeploy, hu2, hc]⟩

/-- Witness for `handleDeploy_repoCreateFails` on a concrete failing repo
response. -/
theorem handleDeploy_repoCreateFails_witness :
    (¬(({ githubToken := "t", githubUsername := "u", vercelToken := "v",
          useBetaDeploy := true } : AppConfig).githubUsername = "")
      ∧ ({ ok := false, htmlUrl := "", errMessage := "boom" } : RepoResponse).ok = false)
    ∧ (createRepository { ok := false, htmlUrl := "", errMessage := "boom" }
        = Except.error ("GitHub Create Repo Error: " ++ "boom")
      ∧ handleDeploy Step.REVIEW (some ⟨"p", "d", [⟨"index.html", "x"⟩]⟩)
          { githubToken := "t", githubUsername := "u", vercelToken := "v",
            useBetaDeploy := true } 7 { ok := false, htmlUrl := "", errMessage := "boom" }
          (fun _ => none) (fun _ => true) ⟨true, "", none, "p-7"⟩
        = { finalStep := Step.REVIEW, result := none, uploads := [],
            hostingCalled := false,
            errorLog := some ("GitHub Create Repo Error: " ++ "boom"),
            warnLog := none }) :=
  ⟨⟨by decide, rfl⟩,
    handleDeploy_repoCreateFails Step.REVIEW ⟨"p", "d", [⟨"index.html", "x"⟩]⟩
      { githubToken := "t", githubUsername := "u", vercelToken := "v",
        useBetaDeploy := true } 7 { ok := false, htmlUrl := "", errMessage := "boom" }
      (fun _ => none) (fun _ => true) ⟨true, "", none, "p-7"⟩ (by decide) rfl⟩

/-- C4: with repository creation and every upload succeeding, hosting enabled,
and the Vercel call failing (not the already-exists code), the pipeline still
succeeds: result has `isBeta := false` (hosting not provisioned), no deploy
URL, the repository URL populated; the failure is only a warning. -/
theorem handleDeploy_hostingFails (s0 : Step) (project : GeneratedProject)
    (config : AppConfig) (suffix : Nat) (repoResp : RepoResponse)
    (probe : String → Option String) (uploadOk : String → Bool)
    (vercelResp : VercelResponse)
    (hu : ¬(config.githubUsername = "")) (hrepo : repoResp.ok = true)
    (hup : ∀ f ∈ project.files, uploadOk f.path = true)
    (hbeta : config.useBetaDeploy = true) (htok : ¬(config.vercelToken = ""))
    (hv : vercelResp.ok = false)
    (hcode : ¬(vercelResp.errCode = "PROJECT_ALREADY_EXISTS")) :
    handleDeploy s0 (some project) config suffix repoResp probe uploadOk vercelResp
      = { finalStep := Step.SUCCESS,
          result := some { repoUrl := repoResp.htmlUrl, deployUrl := none,
                           isBeta := false },
          uploads := project.files.map (fun f => { path := f.path, sha := probe f.path }),
          hostingCalled := true, errorLog := none,
          warnLog := some ("[Beta] Auto-deploy failed ("
            ++ vercelResp.errMessage.getD ("Failed to create Vercel project")
            ++ "). Falling back to manual mode.") } := by
  have hu2 : (config.githubUsername == "") = false := by
    rw [beq_eq_false_iff_ne]
    exact hu
  have htok2 : (config.vercelToken == "") = false := by
    rw [beq_eq_false_iff_ne]
    exact htok
  have hcode2 : (vercelResp.errCode == "PROJECT_ALREADY_EXISTS") = false := by
    rw [beq_eq_false_iff_ne]
    exact hcode
  have hrepoC : createRepository repoResp = Except.ok repoResp.htmlUrl := by
    simp [createRepository, hrepo]
  have hpush := pushFilesToRepo_allOk probe uploadOk project.files hup
  have hvC : ∀ pn rn, createVercelProject pn rn vercelResp
      = Except.error (vercelResp.errMessage.getD ("Failed to create Vercel project")) := by
    intro pn rn
    simp [createVercelProject, hv, hcode2]
  simp [handleDeploy, hu2, hrepoC, hpush, hbeta, htok2, hvC]

/-- Witness for `handleDeploy_hostingFails`: both uploads succeed, the Vercel
call errors with a plain message, the run still succeeds without hosting. -/
theorem handleDeploy_hostingFails_witness :
    (¬(({ githubToken := "t", githubUsername := "u", vercelToken := "v",
          useBetaDeploy := true } : AppConfig).githubUsername = "")
      ∧ ({ ok := true, htmlUrl := "https://github.com/u/p-7", errMessage := "" } :
          RepoResponse).ok = true
      ∧ (∀ f ∈ (⟨"p", "d", [⟨"index.html", "x"⟩, ⟨"src/main.ts", "y"⟩]⟩ :
            GeneratedProject).files, (fun _ : String => true) f.path = true)
      ∧ ({ githubToken := "t", githubUsername := "u", vercelToken := "v",
           useBetaDeploy := true } : AppConfig).useBetaDeploy = true
      ∧ ¬(({ githubToken := "t", githubUsername := "u", vercelToken := "v",
             useBetaDeploy := true } : AppConfig).vercelToken = "")
      ∧ ({ ok := false, errCode := "X", errMessage := some "nope", name := "" } :
          VercelResponse).ok = false
      ∧ ¬(({ ok := false, errCode := "X", errMessage := some "nope", name := "" } :
          VercelResponse).errCode = "PROJECT_ALREADY_EXISTS"))
    ∧ handleDeploy Step.REVIEW
        (some ⟨"p", "d", [⟨"index.html", "x"⟩, ⟨"src/main.ts", "y"⟩]⟩)
        { githubToken := "t", githubUsername := "u", vercelToken := "v",
          useBetaDeploy := true } 7
        { ok := true, htmlUrl := "https://github.com/u/p-7", errMessage := "" }
        (fun _ => none) (fun _ => true)
        { ok := false, errCode := "X", errMessage := some "nope", name := "" }
      = { finalStep := Step.SUCCESS,
          result := some { repoUrl := ({ ok := true, htmlUrl := "https://github.com/u/p-7",
                                         errMessage := "" } : RepoResponse).htmlUrl,
                           deployUrl := none,
                           isBeta := false },
          uploads := (⟨"p", "d", [⟨"index.html", "x"⟩, ⟨"src/main.ts", "y"⟩]⟩ :
              GeneratedProject).files.map
            (fun f => { path := f.path, sha := (fun _ => none) f.path }),
          hostingCalled := true, errorLog := none,
          warnLog := some ("[Beta] Auto-deploy failed ("
            ++ (({ ok := false, errCode := "X", errMessage := some "nope", name := "" } :
                VercelResponse).errMessage.getD ("Failed to create Vercel project"))
            ++ "). Falling back to manual mode.") } :=
  ⟨⟨by decide, rfl, by decide, rfl, by decide, rfl, by decide⟩,
    handleDeploy_hostingFails Step.REVIEW
      ⟨"p", "d", [⟨"index.html", "x"⟩, ⟨"src/main.ts", "y"⟩]⟩
      { githubToken := "t", githubUsername := "u", vercelToken := "v",
        useBetaDeploy := true } 7
      { ok := true, htmlUrl := "https://github.com/u/p-7", errMessage := "" }
      (fun _ => none) (fun _ => true)
      { ok := false, errCode := "X", errMessage := some "nope", name := "" }
      (by decide) rfl (by decide) rfl (by decide) rfl (by decide)⟩

/-- C5: an already-exists answer from the provider is treated as success: the
run succeeds with `isBeta := true` and a hosting URL derived from the GitHub
owner and the (suffixed) project name. -/
theorem handleDeploy_hostingAlreadyExists (s0 : Step) (project : GeneratedProject)
    (config : AppConfig) (suffix : Nat) (repoResp : RepoResponse)
    (probe : String → Option String) (uploadOk : String → Bool)
    (vercelResp : VercelResponse)
    (hu : ¬(config.githubUsername = "")) (hrepo : repoResp.ok = true)
    (hup : ∀ f ∈ project.files, uploadOk f.path = true)
    (hbeta : config.useBetaDeploy = true) (htok : ¬(config.vercelToken = ""))
    (hv : vercelResp.ok = false)
    (hcode : vercelResp.errCode = "PROJECT_ALREADY_EXISTS") :
    handleDeploy s0 (some project) config suffix repoResp probe uploadOk vercelResp
      = { finalStep := Step.SUCCESS,
          result := some { repoUrl := repoResp.htmlUrl,
                           deployUrl := some ("https://vercel.com/"
                             ++ config.githubUsername ++ "/"
                             ++ (project.name ++ "-" ++ toString suffix)),
                           isBeta := true },
          uploads := project.files.map (fun f => { path := f.path, sha := probe f.path }),
          hostingCalled := true, errorLog := none, warnLog := none } := by
  have hu2 : (config.githubUsername == "") = false := by
    rw [beq_eq_false_iff_ne]
    exact hu
  have htok2 : (config.vercelToken == "") = false := by
    rw [beq_eq_false_iff_ne]
    exact htok
  have hcode2 : (vercelResp.errCode == "PROJECT_ALREADY_EXISTS") = true := by
    rw [beq_iff_eq]
    exact hcode
  have hrepoC : createRepository repoResp = Except.ok repoResp.htmlUrl := by
    simp [createRepository, hrepo]
  have hpush := pushFilesToRepo_allOk probe uploadOk project.files hup
  have hvC : ∀ pn rn, createVercelProject pn rn vercelResp
      = Except.ok { name := pn,
                    htmlUrl := some ("https://vercel.com/" ++ (rn.splitOn "/").headD ""
                      ++ "/" ++ pn) } := by
    intro pn rn
    simp [createVercelProject, hv, hcode2]
  simp [handleDeploy, hu2, hrepoC, hpush, hbeta, htok2, hvC]

/-- Witness for `handleDeploy_hostingAlreadyExists` on a concrete
already-exists response. -/
theorem handleDeploy_hostingAlreadyExists_witness :
    (¬(({ githubToken := "t", githubUsername := "u", vercelToken := "v",
          useBetaDeploy := true } : AppConfig).githubUsername = "")
      ∧ ({ ok := true, htmlUrl := "https://github.com/u/p-7", errMessage := "" } :
          RepoResponse).ok = true
      ∧ (∀ f ∈ (⟨"p", "d", [⟨"index.html", "x"⟩, ⟨"src/main.ts", "y"⟩]⟩ :
            GeneratedProject).files, (fun _ : String => true) f.path = true)
      ∧ ({ githubToken := "t", githubUsername := "u", vercelToken := "v",
           useBetaDeploy := true } : AppConfig).useBetaDeploy = true
      ∧ ¬(({ githubToken := "t", githubUsername := "u", vercelToken := "v",
             useBetaDeploy := true } : AppConfig).vercelToken = "")
      ∧ ({ ok := false, errCode := "PROJECT_ALREADY_EXISTS", errMessage := none,
           name := "" } : VercelResponse).ok = false
      ∧ ({ ok := false, errCode := "PROJECT_ALREADY_EXISTS", errMessage := none,
           name := "" } : VercelResponse).errCode = "PROJECT_ALREADY_EXISTS")
    ∧ handleDeploy Step.REVIEW
        (some ⟨"p", "d", [⟨"index.html", "x"⟩, ⟨"src/main.ts", "y"⟩]⟩)
        { githubToken := "t", githubUsername := "u", vercelToken := "v",
          useBetaDeploy := true } 7
        { ok := true, htmlUrl := "https://github.com/u/p-7", errMessage := "" }
        (fun _ => none) (fun _ => true)
        { ok := false, errCode := "PROJECT_ALREADY_EXISTS", errMessage := none,
          name := "" }
      = { finalStep := Step.SUCCESS,
          result := some { repoUrl := ({ ok := true, htmlUrl := "https://github.com/u/p-7",
                                         errMessage := "" } : RepoResponse).htmlUrl,
                           deployUrl := some ("https://vercel.com/"
                             ++ ({ githubToken := "t", githubUsername := "u",
                                   vercelToken := "v",
                                   useBetaDeploy := true } : AppConfig).githubUsername
                             ++ "/"
                             ++ ((⟨"p", "d", [⟨"index.html", "x"⟩, ⟨"src/main.ts", "y"⟩]⟩ :
                                 GeneratedProject).name ++ "-" ++ toString 7)),
                           isBeta := true },
          uploads := (⟨"p", "d", [⟨"index.html", "x"⟩, ⟨"src/main.ts", "y"⟩]⟩ :
              GeneratedProject).files.map
            (fun f => { path := f.path, sha := (fun _ => none) f.path }),
          hostingCalled := true, errorLog := none, warnLog := none } :=
  ⟨⟨by decide, rfl, by decide, rfl, by decide, rfl, rfl⟩,
    handleDeploy_hostingAlreadyExists Step.REVIEW
      ⟨"p", "d", [⟨"index.html", "x"⟩, ⟨"src/main.ts", "y"⟩]⟩
      { githubToken := "t", githubUsername := "u", vercelToken := "v",
        useBetaDeploy := true } 7
      { ok := true, htmlUrl := "https://github.com/u/p-7", errMessage := "" }
      (fun _ => none) (fun _ => true)
      { ok := false, errCode := "PROJECT_ALREADY_EXISTS", errMessage := none,
        name := "" }
      (by decide) rfl (by decide) rfl (by decide) rfl rfl⟩

end AutoDeploy
